import Mathlib

/-!
Shallow embedding of the workload execution and supervision core of
src/main.py: the deployments table, BotRunner.run / BotRunner.stop, the
supervisor sweep (BotSupervisor._check_bots / _restart_bot), and the
stop_bot callback handler, together with a step relation describing the
store transitions these operations perform.

Columns of the deployments table that no property depends on
(start_time, cpu_usage, ram_usage) are omitted from the row model.
-/

/-- Execution states stored in the status column of the deployments table:
'Uploaded', 'Running', 'Crashed', 'Stopped'. -/
inductive Status where
  | Uploaded
  | Running
  | Crashed
  | Stopped
deriving DecidableEq, Repr

/-- One row of the deployments table. `pid` is `Option Int` (`none` is SQL
NULL; the code additionally uses `0` as a no-process sentinel on upload),
`container_id` is `Option String` (`none` is NULL). `auto_restart` models
the INTEGER column (0 / nonzero) as a Bool. -/
structure Row where
  id : Nat
  user_id : Nat
  bot_name : String
  filename : String
  pid : Option Int
  container_id : Option String
  status : Status
  auto_restart : Bool
deriving DecidableEq, Repr

/-- The deployments table: a list of rows. -/
abbrev Store := List Row

/-- Config.MAX_PROCESSES = 3 in src/main.py (the per-owner cap on running bots). -/
def Config.MAX_PROCESSES : Nat := 3

/-- A backend handle as produced by a successful BotRunner start: either the
pid of the spawned subprocess or the id of the started container. -/
inductive Handle where
  | process (pid : Int)
  | container (cid : String)
deriving DecidableEq, Repr

/-- The pid field a runner result stores (`runner.get('pid')`). -/
def handlePid : Handle → Option Int
  | Handle.process p => some p
  | Handle.container _ => none

/-- The container_id field a runner result stores (`runner.get('container_id')`). -/
def handleCid : Handle → Option String
  | Handle.process _ => none
  | Handle.container c => some c

/-- Environment guarantee on handles the backends return: subprocess.Popen
yields a positive pid, docker yields a nonempty container id. -/
def ValidHandle : Handle → Prop
  | Handle.process p => 0 < p
  | Handle.container c => c ≠ ""

/-- Failure modes of BotRunner.run: FileNotFoundError for a missing artifact,
the quota Exception ("Maximum running bots limit reached"), and any exception
escaping Popen / docker run. -/
inductive RunError where
  | FileNotFound
  | QuotaExceeded
  | LaunchFailure
deriving DecidableEq, Repr

/-- Predicate of the quota query: user_id=? AND status='Running'. -/
def runPred (uid : Nat) (r : Row) : Bool :=
  decide (r.user_id = uid ∧ r.status = Status.Running)

/-- SELECT COUNT(*) FROM deployments WHERE user_id=? AND status='Running'. -/
def runningCount (s : Store) (uid : Nat) : Nat :=
  s.countP (runPred uid)

/-- BotRunner.run: first the artifact-existence check (`file_path.exists()`,
raising FileNotFoundError), then the per-user quota check
(`count >= Config.MAX_PROCESSES`), then the backend start whose success or
failure the environment decides through `startOk` and whose handle is `h`.
No store write happens here; the caller persists the returned handle. -/
def BotRunner.run (fileExists startOk : Bool) (h : Handle) (user_id : Nat) (s : Store) :
    Except RunError Handle :=
  if !fileExists then Except.error RunError.FileNotFound
  else if Config.MAX_PROCESSES ≤ runningCount s user_id then Except.error RunError.QuotaExceeded
  else if !startOk then Except.error RunError.LaunchFailure
  else Except.ok h

/-- Effect of the Running update on one row: rows whose id matches the WHERE
clause get the new handle fields and status, others are unchanged. -/
def setRunningRow (bid : Nat) (h : Handle) (r : Row) : Row :=
  if r.id = bid then
    { r with pid := handlePid h, container_id := handleCid h, status := Status.Running }
  else r

/-- UPDATE deployments SET pid=?, container_id=?, status='Running' WHERE id=?,
with pid and container_id taken from the runner result. -/
def setRunning (bid : Nat) (h : Handle) (s : Store) : Store :=
  s.map (setRunningRow bid h)

/-- save_bot_name: INSERT INTO deployments (user_id, bot_name, filename, pid,
start_time, status) VALUES (?, ?, ?, 0, NULL, 'Uploaded'); container_id and
auto_restart take their schema defaults NULL and 0. `bid` is the fresh
AUTOINCREMENT primary key. -/
def save_bot_name (uid bid : Nat) (nm fn : String) (s : Store) : Store :=
  s ++ [{ id := bid, user_id := uid, bot_name := nm, filename := fn,
          pid := some 0, container_id := none, status := Status.Uploaded,
          auto_restart := false }]

/-- start_deployment: SELECT id FROM deployments WHERE filename=? AND user_id=?
(first match; early return when absent), then BotRunner.run with
auto_restart=False; on success UPDATE that row to Running with the new handle,
on any exception leave the store unchanged. The auto_restart column is never
written by this handler. -/
def start_deployment (fileExists startOk : Bool) (h : Handle) (uid : Nat) (fn : String)
    (s : Store) : Store :=
  match s.find? (fun r => decide (r.filename = fn ∧ r.user_id = uid)) with
  | none => s
  | some row =>
      match BotRunner.run fileExists startOk h uid s with
      | Except.error _ => s
      | Except.ok h' => setRunning row.id h' s

/-- Effect of the crash write on one row: only the status field of the row
with the matching id changes; pid and container_id are untouched. -/
def crashRow (bid : Nat) (r : Row) : Row :=
  if r.id = bid then { r with status := Status.Crashed } else r

/-- The supervisor's crash write: UPDATE deployments SET status='Crashed'
WHERE id=?. The WHERE clause names only the id; there is no condition on the
stored status. -/
def crashWrite (bid : Nat) (s : Store) : Store :=
  s.map (crashRow bid)

/-- BotSupervisor._restart_bot: SELECT bot_name, auto_restart FROM deployments
WHERE id=? (return when absent), then BotRunner.run for the row's owner; on
success UPDATE pid, container_id, status='Running' WHERE id=?; on exception
log and leave the store unchanged. -/
def BotSupervisor._restart_bot (fileExists startOk : Bool) (h : Handle) (bid uid : Nat)
    (s : Store) : Store :=
  match s.find? (fun r => decide (r.id = bid)) with
  | none => s
  | some _ =>
      match BotRunner.run fileExists startOk h uid s with
      | Except.error _ => s
      | Except.ok h' => setRunning bid h' s

/-- Python truthiness of a pid column value: NULL and 0 are falsy. -/
def truthyPid : Option Int → Bool
  | some p => decide (p ≠ 0)
  | none => false

/-- Python truthiness of a container_id column value: NULL and '' are falsy. -/
def truthyCid : Option String → Bool
  | some c => decide (c ≠ "")
  | none => false

/-- BotRunner.stop: when a container id is stored and docker is available,
stop the container (any exception, e.g. the container already being gone,
is caught and yields False); otherwise, when a pid is stored, signal its
process group (`except: pass` then fall through to `return False` when the
process is already gone); otherwise return False. `gone` says whether the
target has already disappeared, making the library call raise. The source
catches every exception, so the function is total. -/
def BotRunner.stop (dockerAvailable : Bool) (pid : Option Int) (container_id : Option String)
    (gone : Bool) : Bool :=
  if truthyCid container_id && dockerAvailable then
    if gone then false else true
  else if truthyPid pid then
    if gone then false else true
  else false

/-- Effect of the stop update on one row: the row with the matching id becomes
Stopped with both handle fields NULL. -/
def stopRow (bid : Nat) (r : Row) : Row :=
  if r.id = bid then { r with status := Status.Stopped, pid := none, container_id := none }
  else r

/-- UPDATE deployments SET status='Stopped', pid=NULL, container_id=NULL
WHERE id=?. -/
def clearStopped (bid : Nat) (s : Store) : Store :=
  s.map (stopRow bid)

/-- stop_bot handler: SELECT pid, container_id FROM deployments WHERE id=?
(first match); when the row exists, call BotRunner.stop, discard its boolean,
and unconditionally write status='Stopped', pid=NULL, container_id=NULL for
that id. `requester` is the calling user's id (call.from_user.id); the source
never consults it for the stored effect - there is no ownership check. The
result pairs the backend boolean (`none` when no row was found) with the
updated store. -/
def stop_bot (requester bid : Nat) (dockerAvailable gone : Bool) (s : Store) :
    Option Bool × Store :=
  match s.find? (fun r => decide (r.id = bid)) with
  | none => (none, s)
  | some r => (some (BotRunner.stop dockerAvailable r.pid r.container_id gone),
               clearStopped bid s)

/-- Outcome of one liveness probe: the target reported running, the target
cleanly reported gone, or the probe itself raised (get_process_stats returning
None on an unexpected exception, or _check_docker's bare except). -/
inductive ProbeOutcome where
  | live
  | goneOutcome
  | probeError
deriving DecidableEq, Repr

/-- The boolean `running` that _check_bots derives from a probe:
`stat and stat['running'] if stat else False` for processes, and
_check_docker's `container.status == 'running'` with `except: return False`
for containers. A probe error yields False exactly like a clean "gone". -/
def probeRunning : ProbeOutcome → Bool
  | ProbeOutcome.live => true
  | ProbeOutcome.goneOutcome => false
  | ProbeOutcome.probeError => false

/-- Environment of one supervisor sweep, indexed by deployment id: the probe
outcome for the stored handle, artifact existence, backend-start success, and
the handle a successful restart would produce. -/
structure SweepEnv where
  probe : Nat → ProbeOutcome
  fe : Nat → Bool
  so : Nat → Bool
  h : Nat → Handle

/-- Body of the supervisor's per-row loop in _check_bots, applied to one
snapshot row: if the probe says not running, write status='Crashed' for that
id (unconditionally), and if the snapshot's auto_restart flag is set, invoke
_restart_bot. -/
def checkOne (env : SweepEnv) (snap : Row) (s : Store) : Store :=
  if probeRunning (env.probe snap.id) then s
  else
    let s1 := crashWrite snap.id s
    if snap.auto_restart then
      BotSupervisor._restart_bot (env.fe snap.id) (env.so snap.id) (env.h snap.id)
        snap.id snap.user_id s1
    else s1

/-- SELECT id, user_id, filename, pid, container_id, auto_restart FROM
deployments WHERE status='Running': the snapshot a sweep iterates over. -/
def sweepSnapshot (s : Store) : Store :=
  s.filter (fun r => decide (r.status = Status.Running))

/-- BotSupervisor._check_bots: take the snapshot of Running rows, then process
each snapshot row in order with `checkOne`. -/
def BotSupervisor._check_bots (env : SweepEnv) (s : Store) : Store :=
  (sweepSnapshot s).foldl (fun acc snap => checkOne env snap acc) s

/-- The sweep with the auto-restart branch removed: only the crash writes. -/
def checkOneNoRestart (env : SweepEnv) (snap : Row) (s : Store) : Store :=
  if probeRunning (env.probe snap.id) then s else crashWrite snap.id s

/-- _check_bots restricted to its crash-marking effect (no restart branch). -/
def check_bots_no_restart (env : SweepEnv) (s : Store) : Store :=
  (sweepSnapshot s).foldl (fun acc snap => checkOneNoRestart env snap acc) s

/-- A row holds a usable backend handle: a truthy container_id or a truthy
pid, exactly the values BotRunner.stop and the probes act on. -/
def hasHandle (r : Row) : Bool :=
  truthyCid r.container_id || truthyPid r.pid

/-- The handle/state invariant of one row: Running rows carry a handle;
Uploaded and Stopped rows carry none. (Crashed rows may carry either: they
retain the last handle until a restart or stop clears it.) -/
def HandleInv (r : Row) : Prop :=
  (r.status = Status.Running → hasHandle r = true) ∧
  ((r.status = Status.Uploaded ∨ r.status = Status.Stopped) → hasHandle r = false)

/-- One store transition of the program. The supervisor's sweep is covered by
the `crash` and `restart` constructors at arbitrary ids: a sweep is a
composition of such writes, and because the sweep acts on a snapshot read
before its writes, the row a crash write hits may meanwhile be in any state -
modelling each write as its own step soundly covers both the sequential sweep
and a sweep racing a user stop. `upload` carries the AUTOINCREMENT freshness
of the new primary key; `deploy` and `restart` carry the backend guarantee on
returned handles; `restart` carries that its `uid` argument is the stored
owner of the row (the supervisor passes the row's own user_id, and no
operation ever updates the user_id column). -/
inductive OpStep : Store → Store → Prop where
  | upload (s : Store) (uid bid : Nat) (nm fn : String)
      (fresh : ∀ r ∈ s, r.id ≠ bid) :
      OpStep s (save_bot_name uid bid nm fn s)
  | deploy (s : Store) (fe so : Bool) (h : Handle) (hv : ValidHandle h)
      (uid : Nat) (fn : String) :
      OpStep s (start_deployment fe so h uid fn s)
  | stopOp (s : Store) (req bid : Nat) (davail gone : Bool) :
      OpStep s (stop_bot req bid davail gone s).2
  | crash (s : Store) (bid : Nat) : OpStep s (crashWrite bid s)
  | restart (s : Store) (fe so : Bool) (h : Handle) (hv : ValidHandle h) (bid uid : Nat)
      (hu : ∀ r ∈ s, r.id = bid → r.user_id = uid) :
      OpStep s (BotSupervisor._restart_bot fe so h bid uid s)

/-- Stores reachable from the empty deployments table through the program's
operations. -/
inductive Reachable : Store → Prop where
  | init : Reachable []
  | step (s s' : Store) (h : Reachable s) (hstep : OpStep s s') : Reachable s'

/-- The global store invariant: primary keys are unique, every owner is within
quota, and every row satisfies the handle/state invariant; additionally no
stored row ever has auto_restart set (nothing in the program writes it). -/
structure StoreInv (s : Store) : Prop where
  wf : (s.map Row.id).Nodup
  quota : ∀ uid, runningCount s uid ≤ Config.MAX_PROCESSES
  handle : ∀ r ∈ s, HandleInv r
  auto : ∀ r ∈ s, r.auto_restart = false

/-- Demo store: one uploaded bot of user 7. -/
def demoStore1 : Store := save_bot_name 7 1 "alpha" "a.py" []

/-- Demo store: the uploaded bot of user 7 after a successful deployment. -/
def demoStore2 : Store := start_deployment true true (Handle.process 42) 7 "a.py" demoStore1

/-- Store of a user at quota: three Running rows of user 7. -/
def fullStore : Store :=
  [{ id := 1, user_id := 7, bot_name := "a", filename := "a.py", pid := some 11,
     container_id := none, status := Status.Running, auto_restart := false },
   { id := 2, user_id := 7, bot_name := "b", filename := "b.py", pid := some 12,
     container_id := none, status := Status.Running, auto_restart := false },
   { id := 3, user_id := 7, bot_name := "c", filename := "c.py", pid := some 13,
     container_id := none, status := Status.Running, auto_restart := false }]

/-- Row of deployment 1 after a user-initiated stop completed: state Stopped,
handle cleared, auto_restart set. -/
def stoppedRow : Row :=
  { id := 1, user_id := 7, bot_name := "alpha", filename := "a.py", pid := none,
    container_id := none, status := Status.Stopped, auto_restart := true }

/-- Store after a user-initiated stop of deployment 1 completed. -/
def stoppedStore : Store := [stoppedRow]

/-- The pre-stop snapshot row a supervisor sweep read before the stop: still
Running with the old pid. -/
def staleSnap : Row :=
  { id := 1, user_id := 7, bot_name := "alpha", filename := "a.py", pid := some 42,
    container_id := none, status := Status.Running, auto_restart := true }

/-- Sweep environment in which every probe reports the target gone and every
restart would succeed. -/
def goEnv : SweepEnv :=
  { probe := fun _ => ProbeOutcome.goneOutcome, fe := fun _ => true,
    so := fun _ => true, h := fun _ => Handle.process 99 }

/-- Sweep environment in which every probe reports the target gone and every
restart launch fails because the artifact file is missing. -/
def failEnv : SweepEnv :=
  { probe := fun _ => ProbeOutcome.goneOutcome, fe := fun _ => false,
    so := fun _ => true, h := fun _ => Handle.process 99 }

/-- Sweep environment in which every liveness probe itself errors. -/
def errEnv : SweepEnv :=
  { probe := fun _ => ProbeOutcome.probeError, fe := fun _ => true,
    so := fun _ => true, h := fun _ => Handle.process 99 }

/-- Row of a crashed deployment with auto_restart set (the state left behind
by a failed supervisor restart: status Crashed, last handle retained). -/
def crashedRow : Row :=
  { id := 1, user_id := 7, bot_name := "alpha", filename := "a.py", pid := some 42,
    container_id := none, status := Status.Crashed, auto_restart := true }

/-- Store holding one crashed deployment with auto_restart set. -/
def crashedStore : Store := [crashedRow]

/-- Row of one running deployment of user 7 (auto_restart clear). -/
def runningRow : Row :=
  { id := 1, user_id := 7, bot_name := "alpha", filename := "a.py", pid := some 42,
    container_id := none, status := Status.Running, auto_restart := false }

/-- Store holding one running deployment (auto_restart clear). -/
def runningStore : Store := [runningRow]

/-! Row-level facts about the three UPDATE effects. -/

theorem setRunningRow_of_ne (bid : Nat) (h : Handle) (r : Row) (hb : r.id ≠ bid) :
    setRunningRow bid h r = r := by
  unfold setRunningRow
  rw [if_neg hb]

theorem setRunningRow_of_eq (bid : Nat) (h : Handle) (r : Row) (hb : r.id = bid) :
    setRunningRow bid h r
      = { r with pid := handlePid h, container_id := handleCid h, status := Status.Running } := by
  unfold setRunningRow
  rw [if_pos hb]

theorem setRunningRow_id (bid : Nat) (h : Handle) (r : Row) :
    (setRunningRow bid h r).id = r.id := by
  unfold setRunningRow
  split <;> rfl

theorem setRunningRow_user (bid : Nat) (h : Handle) (r : Row) :
    (setRunningRow bid h r).user_id = r.user_id := by
  unfold setRunningRow
  split <;> rfl

theorem setRunningRow_auto (bid : Nat) (h : Handle) (r : Row) :
    (setRunningRow bid h r).auto_restart = r.auto_restart := by
  unfold setRunningRow
  split <;> rfl

theorem crashRow_of_ne (bid : Nat) (r : Row) (hb : r.id ≠ bid) : crashRow bid r = r := by
  unfold crashRow
  rw [if_neg hb]

theorem crashRow_of_eq (bid : Nat) (r : Row) (hb : r.id = bid) :
    crashRow bid r = { r with status := Status.Crashed } := by
  unfold crashRow
  rw [if_pos hb]

theorem crashRow_id (bid : Nat) (r : Row) : (crashRow bid r).id = r.id := by
  unfold crashRow
  split <;> rfl

theorem crashRow_pid (bid : Nat) (r : Row) : (crashRow bid r).pid = r.pid := by
  unfold crashRow
  split <;> rfl

theorem crashRow_cid (bid : Nat) (r : Row) : (crashRow bid r).container_id = r.container_id := by
  unfold crashRow
  split <;> rfl

theorem crashRow_auto (bid : Nat) (r : Row) : (crashRow bid r).auto_restart = r.auto_restart := by
  unfold crashRow
  split <;> rfl

theorem stopRow_of_ne (bid : Nat) (r : Row) (hb : r.id ≠ bid) : stopRow bid r = r := by
  unfold stopRow
  rw [if_neg hb]

theorem stopRow_of_eq (bid : Nat) (r : Row) (hb : r.id = bid) :
    stopRow bid r = { r with status := Status.Stopped, pid := none, container_id := none } := by
  unfold stopRow
  rw [if_pos hb]

theorem stopRow_id (bid : Nat) (r : Row) : (stopRow bid r).id = r.id := by
  unfold stopRow
  split <;> rfl

theorem stopRow_auto (bid : Nat) (r : Row) : (stopRow bid r).auto_restart = r.auto_restart := by
  unfold stopRow
  split <;> rfl

theorem stopRow_idem (bid : Nat) (r : Row) : stopRow bid (stopRow bid r) = stopRow bid r := by
  by_cases hb : r.id = bid
  · rw [stopRow_of_eq bid r hb]
    exact stopRow_of_eq bid _ hb
  · rw [stopRow_of_ne bid r hb, stopRow_of_ne bid r hb]

/-! Counting lemmas for the quota invariant. -/

theorem countP_zero_map (p : Row → Bool) (f : Row → Row) (bid : Nat)
    (hf : ∀ r, r.id ≠ bid → f r = r) :
    ∀ l : List Row, l.countP (fun r => decide (r.id = bid)) = 0 →
      l.countP (fun r => p (f r)) = l.countP p := by
  intro l
  induction l with
  | nil => intro _; rfl
  | cons a t ih =>
    intro h0
    rw [List.countP_cons] at h0
    by_cases hab : a.id = bid
    · exfalso
      have h1 : (if decide (a.id = bid) = true then 1 else 0) = 1 := by simp [hab]
      omega
    · have hz : (if decide (a.id = bid) = true then 1 else 0) = 0 := by simp [hab]
      rw [List.countP_cons, List.countP_cons, hf a hab, ih (by omega)]

theorem countP_comp_le_succ (p : Row → Bool) (f : Row → Row) (bid : Nat)
    (hf : ∀ r, r.id ≠ bid → f r = r) :
    ∀ l : List Row, l.countP (fun r => decide (r.id = bid)) ≤ 1 →
      l.countP (fun r => p (f r)) ≤ l.countP p + 1 := by
  intro l
  induction l with
  | nil => intro _; simp
  | cons a t ih =>
    intro hone
    rw [List.countP_cons] at hone
    rw [List.countP_cons, List.countP_cons]
    by_cases hab : a.id = bid
    · have hi : (if decide (a.id = bid) = true then 1 else 0) = 1 := by simp [hab]
      have h0 : t.countP (fun r => decide (r.id = bid)) = 0 := by omega
      rw [countP_zero_map p f bid hf t h0]
      have h1 : (if p (f a) = true then 1 else 0) ≤ 1 := by split <;> omega
      omega
    · rw [hf a hab]
      have hz : (if decide (a.id = bid) = true then 1 else 0) = 0 := by simp [hab]
      have h1 := ih (by omega)
      omega

theorem countP_map_le_succ (p : Row → Bool) (f : Row → Row) (bid : Nat)
    (hf : ∀ r, r.id ≠ bid → f r = r) (l : List Row)
    (hone : l.countP (fun r => decide (r.id = bid)) ≤ 1) :
    (l.map f).countP p ≤ l.countP p + 1 := by
  rw [List.countP_map]
  exact countP_comp_le_succ p f bid hf l hone

theorem countP_id_le_one (bid : Nat) :
    ∀ s : Store, (s.map Row.id).Nodup → s.countP (fun r => decide (r.id = bid)) ≤ 1 := by
  intro s
  induction s with
  | nil => intro _; simp
  | cons a t ih =>
    intro hs
    rw [List.map_cons, List.nodup_cons] at hs
    rw [List.countP_cons]
    by_cases hab : a.id = bid
    · have h0 : t.countP (fun r => decide (r.id = bid)) = 0 := by
        rw [List.countP_eq_zero]
        intro r hr hrb
        have hrid : r.id = bid := of_decide_eq_true hrb
        exact hs.1 (by rw [hab, ← hrid]; exact List.mem_map_of_mem Row.id hr)
      have hi : (if decide (a.id = bid) = true then 1 else 0) = 1 := by simp [hab]
      omega
    · have h1 := ih hs.2
      have hz : (if decide (a.id = bid) = true then 1 else 0) = 0 := by simp [hab]
      omega

theorem runningCount_map_le (s : Store) (uid : Nat) (f : Row → Row)
    (hf : ∀ r ∈ s, f r = r ∨ (f r).status ≠ Status.Running) :
    runningCount (s.map f) uid ≤ runningCount s uid := by
  unfold runningCount
  rw [List.countP_map]
  apply List.countP_mono_left
  intro r hr hpr
  simp only [Function.comp_apply, runPred, decide_eq_true_eq] at hpr
  rcases hf r hr with h | h
  · rw [h] at hpr
    simpa [runPred] using hpr
  · exact absurd hpr.2 h

theorem runningCount_map_other (s : Store) (uid v : Nat) (f : Row → Row)
    (hne : v ≠ uid)
    (hf : ∀ r ∈ s, f r = r ∨ ((f r).user_id = r.user_id ∧ r.user_id = uid)) :
    runningCount (s.map f) v = runningCount s v := by
  unfold runningCount
  rw [List.countP_map]
  apply le_antisymm
  · apply List.countP_mono_left
    intro r hr hpr
    simp only [Function.comp_apply, runPred, decide_eq_true_eq] at hpr
    rcases hf r hr with h | h
    · rw [h] at hpr
      simpa [runPred] using hpr
    · exfalso
      exact hne (by rw [← hpr.1, h.1]; exact h.2)
  · apply List.countP_mono_left
    intro r hr hpr
    simp only [runPred, decide_eq_true_eq] at hpr
    rcases hf r hr with h | h
    · simp only [Function.comp_apply, runPred, decide_eq_true_eq, h]
      exact hpr
    · exfalso
      exact hne (hpr.1 ▸ h.2)

/-! Facts about BotRunner.run outcomes. -/

theorem run_ok_lt (fe so : Bool) (h h' : Handle) (uid : Nat) (s : Store)
    (hr : BotRunner.run fe so h uid s = Except.ok h') :
    runningCount s uid < Config.MAX_PROCESSES := by
  unfold BotRunner.run at hr
  split at hr
  · cases hr
  · split at hr
    · cases hr
    · omega

theorem run_ok_eq (fe so : Bool) (h h' : Handle) (uid : Nat) (s : Store)
    (hr : BotRunner.run fe so h uid s = Except.ok h') : h' = h := by
  unfold BotRunner.run at hr
  split at hr
  · cases hr
  · split at hr
    · cases hr
    · split at hr
      · cases hr
      · injection hr with hh
        exact hh.symm

/-! find? and id lemmas. -/

theorem find?_id_isSome (s : Store) (bid : Nat) (r : Row) (hr : r ∈ s) (hid : r.id = bid) :
    ∃ q, s.find? (fun x => decide (x.id = bid)) = some q := by
  have h1 : (s.find? (fun x => decide (x.id = bid))).isSome = true :=
    List.find?_isSome.mpr ⟨r, hr, decide_eq_true hid⟩
  cases hq : s.find? (fun x => decide (x.id = bid)) with
  | none =>
    rw [hq] at h1
    simp at h1
  | some q => exact ⟨q, rfl⟩

theorem ids_map (f : Row → Row) (hf : ∀ r, (f r).id = r.id) (s : Store) :
    (s.map f).map Row.id = s.map Row.id := by
  induction s with
  | nil => rfl
  | cons a t ih => simp [hf, ih]

theorem wf_unique (s : Store) (hs : (s.map Row.id).Nodup) :
    ∀ r ∈ s, ∀ q ∈ s, r.id = q.id → r = q :=
  fun r hr q hq h => List.inj_on_of_nodup_map hs hr hq h

/-! Preservation of the store invariant by each operation. -/

theorem storeInv_upload (s : Store) (uid bid : Nat) (nm fn : String)
    (fresh : ∀ r ∈ s, r.id ≠ bid) (hs : StoreInv s) :
    StoreInv (save_bot_name uid bid nm fn s) := by
  unfold save_bot_name
  constructor
  · rw [List.map_append, List.nodup_append]
    refine ⟨hs.wf, by simp, ?_⟩
    intro x hx hx2
    simp only [List.map_cons, List.map_nil, List.mem_singleton] at hx2
    rcases List.mem_map.mp hx with ⟨r, hr, rfl⟩
    exact fresh r hr hx2
  · intro w
    unfold runningCount
    rw [List.countP_append]
    have hq : s.countP (runPred w) ≤ Config.MAX_PROCESSES := hs.quota w
    have hz : List.countP (runPred w)
        [{ id := bid, user_id := uid, bot_name := nm, filename := fn,
           pid := some 0, container_id := none, status := Status.Uploaded,
           auto_restart := false }] = 0 := by
      simp [runPred]
    omega
  · intro r hr
    rw [List.mem_append] at hr
    rcases hr with hr | hr
    · exact hs.handle r hr
    · rw [List.mem_singleton] at hr
      subst hr
      constructor
      · intro hst
        exact Status.noConfusion hst
      · intro _
        rfl
  · intro r hr
    rw [List.mem_append] at hr
    rcases hr with hr | hr
    · exact hs.auto r hr
    · rw [List.mem_singleton] at hr
      subst hr
      rfl

theorem storeInv_setRunning (s : Store) (bid uid : Nat) (h : Handle) (hv : ValidHandle h)
    (hs : StoreInv s) (hu : ∀ r ∈ s, r.id = bid → r.user_id = uid)
    (hq : runningCount s uid < Config.MAX_PROCESSES) :
    StoreInv (setRunning bid h s) := by
  unfold setRunning
  constructor
  · rw [ids_map (setRunningRow bid h) (setRunningRow_id bid h) s]
    exact hs.wf
  · intro w
    by_cases hw : w = uid
    · subst hw
      have h1 : (s.map (setRunningRow bid h)).countP (runPred w) ≤ s.countP (runPred w) + 1 :=
        countP_map_le_succ (runPred w) (setRunningRow bid h) bid
          (setRunningRow_of_ne bid h) s (countP_id_le_one bid s hs.wf)
      have h2 : s.countP (runPred w) < Config.MAX_PROCESSES := hq
      show (s.map (setRunningRow bid h)).countP (runPred w) ≤ Config.MAX_PROCESSES
      omega
    · have h1 : runningCount (s.map (setRunningRow bid h)) w = runningCount s w := by
        apply runningCount_map_other s uid w (setRunningRow bid h) hw
        intro r hr
        by_cases hb : r.id = bid
        · exact Or.inr ⟨setRunningRow_user bid h r, hu r hr hb⟩
        · exact Or.inl (setRunningRow_of_ne bid h r hb)
      show runningCount (s.map (setRunningRow bid h)) w ≤ Config.MAX_PROCESSES
      rw [h1]
      exact hs.quota w
  · intro r' hr'
    rcases List.mem_map.mp hr' with ⟨r, hr, rfl⟩
    by_cases hb : r.id = bid
    · rw [setRunningRow_of_eq bid h r hb]
      constructor
      · intro _
        cases h with
        | process p =>
            have hvp : (0 : Int) < p := hv
            have hp : p ≠ 0 := by omega
            simp [hasHandle, handlePid, handleCid, truthyCid, truthyPid, hp]
        | container c =>
            have hc : c ≠ "" := hv
            simp [hasHandle, handlePid, handleCid, truthyCid, truthyPid, hc]
      · intro hcon
        rcases hcon with h1 | h1 <;> exact Status.noConfusion h1
    · rw [setRunningRow_of_ne bid h r hb]
      exact hs.handle r hr
  · intro r' hr'
    rcases List.mem_map.mp hr' with ⟨r, hr, rfl⟩
    rw [setRunningRow_auto bid h r]
    exact hs.auto r hr

theorem storeInv_crashWrite (s : Store) (bid : Nat) (hs : StoreInv s) :
    StoreInv (crashWrite bid s) := by
  unfold crashWrite
  constructor
  · rw [ids_map (crashRow bid) (crashRow_id bid) s]
    exact hs.wf
  · intro w
    have h1 : runningCount (s.map (crashRow bid)) w ≤ runningCount s w := by
      apply runningCount_map_le
      intro r hr
      by_cases hb : r.id = bid
      · right
        rw [crashRow_of_eq bid r hb]
        intro hst
        exact Status.noConfusion hst
      · left
        exact crashRow_of_ne bid r hb
    exact le_trans h1 (hs.quota w)
  · intro r' hr'
    rcases List.mem_map.mp hr' with ⟨r, hr, rfl⟩
    by_cases hb : r.id = bid
    · rw [crashRow_of_eq bid r hb]
      constructor
      · intro hst
        exact Status.noConfusion hst
      · intro hcon
        rcases hcon with h1 | h1 <;> exact Status.noConfusion h1
    · rw [crashRow_of_ne bid r hb]
      exact hs.handle r hr
  · intro r' hr'
    rcases List.mem_map.mp hr' with ⟨r, hr, rfl⟩
    rw [crashRow_auto bid r]
    exact hs.auto r hr

theorem storeInv_clearStopped (s : Store) (bid : Nat) (hs : StoreInv s) :
    StoreInv (clearStopped bid s) := by
  unfold clearStopped
  constructor
  · rw [ids_map (stopRow bid) (stopRow_id bid) s]
    exact hs.wf
  · intro w
    have h1 : runningCount (s.map (stopRow bid)) w ≤ runningCount s w := by
      apply runningCount_map_le
      intro r hr
      by_cases hb : r.id = bid
      · right
        rw [stopRow_of_eq bid r hb]
        intro hst
        exact Status.noConfusion hst
      · left
        exact stopRow_of_ne bid r hb
    exact le_trans h1 (hs.quota w)
  · intro r' hr'
    rcases List.mem_map.mp hr' with ⟨r, hr, rfl⟩
    by_cases hb : r.id = bid
    · rw [stopRow_of_eq bid r hb]
      constructor
      · intro hst
        exact Status.noConfusion hst
      · intro _
        rfl
    · rw [stopRow_of_ne bid r hb]
      exact hs.handle r hr
  · intro r' hr'
    rcases List.mem_map.mp hr' with ⟨r, hr, rfl⟩
    rw [stopRow_auto bid r]
    exact hs.auto r hr

theorem stop_bot_snd (req bid : Nat) (davail gone : Bool) (s : Store) (r : Row)
    (hr : r ∈ s) (hid : r.id = bid) :
    (stop_bot req bid davail gone s).2 = clearStopped bid s := by
  obtain ⟨q, hq⟩ := find?_id_isSome s bid r hr hid
  unfold stop_bot
  rw [hq]

theorem storeInv_stop (s : Store) (req bid : Nat) (davail gone : Bool) (hs : StoreInv s) :
    StoreInv (stop_bot req bid davail gone s).2 := by
  unfold stop_bot
  cases hfind : s.find? (fun x => decide (x.id = bid)) with
  | none => exact hs
  | some q => exact storeInv_clearStopped s bid hs

theorem storeInv_deploy (s : Store) (fe so : Bool) (h : Handle) (hv : ValidHandle h)
    (uid : Nat) (fn : String) (hs : StoreInv s) :
    StoreInv (start_deployment fe so h uid fn s) := by
  unfold start_deployment
  cases hfind : s.find? (fun r => decide (r.filename = fn ∧ r.user_id = uid)) with
  | none => exact hs
  | some row =>
    cases hrun : BotRunner.run fe so h uid s with
    | error e => exact hs
    | ok h' =>
      have hmem := List.mem_of_find?_eq_some hfind
      have hpred : row.filename = fn ∧ row.user_id = uid := by
        have h1 := List.find?_some hfind
        simp only [decide_eq_true_eq] at h1
        exact h1
      have hu : ∀ r ∈ s, r.id = row.id → r.user_id = uid := by
        intro r hr hidr
        rw [wf_unique s hs.wf r hr row hmem hidr]
        exact hpred.2
      have hlt := run_ok_lt fe so h h' uid s hrun
      have hv' : ValidHandle h' := by
        rw [run_ok_eq fe so h h' uid s hrun]
        exact hv
      exact storeInv_setRunning s row.id uid h' hv' hs hu hlt

theorem storeInv_restart (s : Store) (fe so : Bool) (h : Handle) (hv : ValidHandle h)
    (bid uid : Nat) (hu : ∀ r ∈ s, r.id = bid → r.user_id = uid) (hs : StoreInv s) :
    StoreInv (BotSupervisor._restart_bot fe so h bid uid s) := by
  unfold BotSupervisor._restart_bot
  cases hfind : s.find? (fun r => decide (r.id = bid)) with
  | none => exact hs
  | some row =>
    cases hrun : BotRunner.run fe so h uid s with
    | error e => exact hs
    | ok h' =>
      have hlt := run_ok_lt fe so h h' uid s hrun
      have hv' : ValidHandle h' := by
        rw [run_ok_eq fe so h h' uid s hrun]
        exact hv
      exact storeInv_setRunning s bid uid h' hv' hs hu hlt

theorem storeInv_step (s s' : Store) (hstep : OpStep s s') (hs : StoreInv s) : StoreInv s' := by
  cases hstep with
  | upload uid bid nm fn fresh => exact storeInv_upload s uid bid nm fn fresh hs
  | deploy fe so h hv uid fn => exact storeInv_deploy s fe so h hv uid fn hs
  | stopOp req bid davail gone => exact storeInv_stop s req bid davail gone hs
  | crash bid => exact storeInv_crashWrite s bid hs
  | restart fe so h hv bid uid hu => exact storeInv_restart s fe so h hv bid uid hu hs

theorem reachable_storeInv (s : Store) (hs : Reachable s) : StoreInv s := by
  induction hs with
  | init =>
    constructor
    · simp
    · intro uid
      simp [runningCount]
    · intro r hr
      simp at hr
    · intro r hr
      simp at hr
  | step s s' h hstep ih => exact storeInv_step s s' hstep ih

/-! At-quota launch attempts leave the store unchanged. -/

theorem start_deployment_at_quota (fe so : Bool) (h : Handle) (uid : Nat) (fn : String)
    (s : Store) (hq : Config.MAX_PROCESSES ≤ runningCount s uid) :
    start_deployment fe so h uid fn s = s := by
  unfold start_deployment
  cases hfind : s.find? (fun r => decide (r.filename = fn ∧ r.user_id = uid)) with
  | none => rfl
  | some row =>
    cases hrun : BotRunner.run fe so h uid s with
    | error e => rfl
    | ok h' => exact absurd (run_ok_lt fe so h h' uid s hrun) (by omega)

theorem restart_at_quota (fe so : Bool) (h : Handle) (bid uid : Nat)
    (s : Store) (hq : Config.MAX_PROCESSES ≤ runningCount s uid) :
    BotSupervisor._restart_bot fe so h bid uid s = s := by
  unfold BotSupervisor._restart_bot
  cases hfind : s.find? (fun r => decide (r.id = bid)) with
  | none => rfl
  | some row =>
    cases hrun : BotRunner.run fe so h uid s with
    | error e => rfl
    | ok h' => exact absurd (run_ok_lt fe so h h' uid s hrun) (by omega)

/-! Sweep helpers. -/

theorem sweepSnapshot_running (s : Store) : ∀ r ∈ sweepSnapshot s, r.status = Status.Running :=
  fun _ hr => of_decide_eq_true (List.mem_filter.mp hr).2

theorem foldl_no_restart (env : SweepEnv) :
    ∀ l : List Row, (∀ r ∈ l, r.auto_restart = false) →
      ∀ s : Store, l.foldl (fun acc snap => checkOne env snap acc) s
        = l.foldl (fun acc snap => checkOneNoRestart env snap acc) s := by
  intro l
  induction l with
  | nil => intro _ s; rfl
  | cons a t ih =>
    intro har s
    have ha := har a (List.mem_cons_self a t)
    have ht : ∀ r ∈ t, r.auto_restart = false := fun r hr => har r (List.mem_cons_of_mem a hr)
    rw [List.foldl_cons, List.foldl_cons, ih ht]
    have hone : checkOne env a s = checkOneNoRestart env a s := by
      unfold checkOne checkOneNoRestart
      rw [ha]
      simp
    rw [hone]

theorem clearStopped_idem (bid : Nat) (s : Store) :
    clearStopped bid (clearStopped bid s) = clearStopped bid s := by
  unfold clearStopped
  induction s with
  | nil => rfl
  | cons a t ih => simp [stopRow_idem, ih]

theorem clearStopped_mem (bid : Nat) (s : Store) (r : Row) (hr : r ∈ s) (hid : r.id = bid) :
    ∃ r' ∈ clearStopped bid s, r'.id = bid ∧ r'.status = Status.Stopped ∧
      r'.pid = none ∧ r'.container_id = none := by
  have hrow := stopRow_of_eq bid r hid
  refine ⟨stopRow bid r, List.mem_map_of_mem (stopRow bid) hr, ?_, ?_, ?_, ?_⟩
  · rw [hrow]
    exact hid
  · rw [hrow]
  · rw [hrow]
  · rw [hrow]

theorem crashWrite_preserves_handles (bid : Nat) (s : Store) :
    (crashWrite bid s).map (fun r => (r.id, r.pid, r.container_id))
      = s.map (fun r => (r.id, r.pid, r.container_id)) := by
  induction s with
  | nil => rfl
  | cons a t ih =>
    rw [show crashWrite bid (a :: t) = crashRow bid a :: crashWrite bid t from rfl,
        List.map_cons, List.map_cons, crashRow_id, crashRow_pid, crashRow_cid, ih]

/-! A concrete reachable store for witnesses. -/

theorem demoStore2_reachable : Reachable demoStore2 :=
  Reachable.step demoStore1 demoStore2
    (Reachable.step [] demoStore1 Reachable.init
      (OpStep.upload [] 7 1 "alpha" "a.py" (by simp)))
    (OpStep.deploy demoStore1 true true (Handle.process 42) (show (0 : Int) < 42 by decide) 7 "a.py")

/-! Claim theorems. -/

/-- Claim C1, counterexample: the claim asserts the Supervisor's crash write
takes effect only while the stored state is still Running (compare-and-swap),
so a sweep that observed the pre-stop handle cannot overwrite a Stopped row
and re-launch the workload. The source's write is UPDATE deployments SET
status='Crashed' WHERE id=? with no state condition: on the store left by a
completed stop (state Stopped, handle cleared) the crash write for that id
yields Crashed, and the sweep body acting on the stale pre-stop snapshot
(auto_restart set, probe reporting the old pid gone, restart succeeding)
leaves the execution Running again. -/
theorem stop_resurrected_by_stale_sweep :
    stoppedStore.map Row.status = [Status.Stopped] ∧
    (crashWrite staleSnap.id stoppedStore).map Row.status = [Status.Crashed] ∧
    (checkOne goEnv staleSnap stoppedStore).map Row.status = [Status.Running] := by
  decide

/-- Claim C1 (amended): after a user stop has set the row to Stopped, a
Supervisor sweep acting on its pre-stop snapshot CAN transition the execution
back to Crashed (and, with auto_restart set, re-launch it): the crash write is
an unconditional UPDATE by id - for every store and every row carrying the
targeted id, whatever its stored state, the write leaves that row Crashed,
with its handle fields unchanged. There is no compare-and-swap guard. -/
theorem crash_write_unconditional (s : Store) (bid : Nat) (r : Row)
    (hr : r ∈ s) (hid : r.id = bid) :
    ∃ r' ∈ crashWrite bid s, r'.id = bid ∧ r'.status = Status.Crashed ∧
      r'.pid = r.pid ∧ r'.container_id = r.container_id := by
  refine ⟨crashRow bid r, List.mem_map_of_mem (crashRow bid) hr, ?_, ?_, ?_, ?_⟩
  · rw [crashRow_id]
    exact hid
  · rw [crashRow_of_eq bid r hid]
  · rw [crashRow_pid]
  · rw [crashRow_cid]

/-- Witness for crash_write_unconditional at the Stopped row of stoppedStore. -/
theorem crash_write_unconditional_witness :
    ∃ r' ∈ crashWrite 1 stoppedStore, r'.id = 1 ∧ r'.status = Status.Crashed ∧
      r'.pid = stoppedRow.pid ∧ r'.container_id = stoppedRow.container_id :=
  crash_write_unconditional stoppedStore 1 stoppedRow (List.mem_singleton.mpr rfl) rfl

/-- Claim C2: in every reachable store, every owner's count of Running rows is
at most Config.MAX_PROCESSES (= 3); reachability closes over every operation
that can create a Running execution (user deployment and the supervisor's
restart path both included), and a launch attempt - deployment or supervisor
restart - made while the owner is at the limit leaves the store unchanged, so
the count stays at exactly the limit, never above. -/
theorem quota_never_exceeded (s : Store) (hs : Reachable s) (uid : Nat) :
    Config.MAX_PROCESSES = 3 ∧
    runningCount s uid ≤ Config.MAX_PROCESSES ∧
    (∀ fe so h fn, Config.MAX_PROCESSES ≤ runningCount s uid →
      runningCount (start_deployment fe so h uid fn s) uid = Config.MAX_PROCESSES) ∧
    (∀ fe so h bid, Config.MAX_PROCESSES ≤ runningCount s uid →
      runningCount (BotSupervisor._restart_bot fe so h bid uid s) uid
        = Config.MAX_PROCESSES) := by
  have hq := (reachable_storeInv s hs).quota uid
  refine ⟨rfl, hq, ?_, ?_⟩
  · intro fe so h fn hge
    rw [start_deployment_at_quota fe so h uid fn s hge]
    omega
  · intro fe so h bid hge
    rw [restart_at_quota fe so h bid uid s hge]
    omega

/-- Witness for quota_never_exceeded at the reachable store demoStore2. -/
theorem quota_never_exceeded_witness :
    Config.MAX_PROCESSES = 3 ∧
    runningCount demoStore2 7 ≤ Config.MAX_PROCESSES ∧
    (∀ fe so h fn, Config.MAX_PROCESSES ≤ runningCount demoStore2 7 →
      runningCount (start_deployment fe so h 7 fn demoStore2) 7 = Config.MAX_PROCESSES) ∧
    (∀ fe so h bid, Config.MAX_PROCESSES ≤ runningCount demoStore2 7 →
      runningCount (BotSupervisor._restart_bot fe so h bid 7 demoStore2) 7
        = Config.MAX_PROCESSES) :=
  quota_never_exceeded demoStore2 demoStore2_reachable 7

/-- Claim C3, counterexample: the claim asserts the quota check is step 1,
before the artifact-existence check, so an at-quota owner with an
unresolvable artifact gets QuotaExceeded. In BotRunner.run the file check
comes first: for an owner with three Running rows and a missing file the
failure is FileNotFoundError, not the quota error. -/
theorem artifact_check_precedes_quota :
    Config.MAX_PROCESSES ≤ runningCount fullStore 7 ∧
    BotRunner.run false true (Handle.process 9) 7 fullStore
      = Except.error RunError.FileNotFound ∧
    BotRunner.run false true (Handle.process 9) 7 fullStore
      ≠ Except.error RunError.QuotaExceeded := by
  have hfnf : BotRunner.run false true (Handle.process 9) 7 fullStore
      = Except.error RunError.FileNotFound := rfl
  refine ⟨by decide, hfnf, ?_⟩
  intro hcon
  rw [hfnf] at hcon
  simp at hcon

/-- Claim C3 (amended): a launch attempt by an owner at or above the quota
fails and creates or changes nothing - the deployment handler leaves the
store unchanged - and when the artifact exists the failure is QuotaExceeded;
but the artifact-existence check precedes the quota check, so when the
artifact is also missing the failure is FileNotFoundError instead. -/
theorem at_quota_launch_rejected (s : Store) (uid : Nat) (fe so : Bool) (h : Handle)
    (fn : String) (hq : Config.MAX_PROCESSES ≤ runningCount s uid) :
    (fe = true → BotRunner.run fe so h uid s = Except.error RunError.QuotaExceeded) ∧
    (fe = false → BotRunner.run fe so h uid s = Except.error RunError.FileNotFound) ∧
    start_deployment fe so h uid fn s = s := by
  refine ⟨?_, ?_, start_deployment_at_quota fe so h uid fn s hq⟩
  · intro hfe
    subst hfe
    unfold BotRunner.run
    rw [if_neg (by simp), if_pos hq]
  · intro hfe
    subst hfe
    rfl

/-- Witness for at_quota_launch_rejected at the full store of user 7. -/
theorem at_quota_launch_rejected_witness :
    (true = true → BotRunner.run true true (Handle.process 9) 7 fullStore
      = Except.error RunError.QuotaExceeded) ∧
    (true = false → BotRunner.run true true (Handle.process 9) 7 fullStore
      = Except.error RunError.FileNotFound) ∧
    start_deployment true true (Handle.process 9) 7 "a.py" fullStore = fullStore :=
  at_quota_launch_rejected fullStore 7 true true (Handle.process 9) "a.py" (by decide)

/-- Claim C4: for every stored execution, stop_bot writes status='Stopped' and
clears both handle fields, and the written store is the same whatever the
backend environment (docker availability, target already gone) - in
particular the write happens even when BotRunner.stop returns false. -/
theorem stop_forces_stopped (req bid : Nat) (d1 g1 d2 g2 : Bool) (s : Store) (r : Row)
    (hr : r ∈ s) (hid : r.id = bid) :
    (stop_bot req bid d1 g1 s).2 = (stop_bot req bid d2 g2 s).2 ∧
    ∃ r' ∈ (stop_bot req bid d1 g1 s).2, r'.id = bid ∧ r'.status = Status.Stopped ∧
      r'.pid = none ∧ r'.container_id = none := by
  have h1 := stop_bot_snd req bid d1 g1 s r hr hid
  have h2 := stop_bot_snd req bid d2 g2 s r hr hid
  refine ⟨by rw [h1, h2], ?_⟩
  rw [h1]
  exact clearStopped_mem bid s r hr hid

/-- Witness for stop_forces_stopped at the running deployment of runningStore,
comparing a gone-backend environment with a live-backend one. -/
theorem stop_forces_stopped_witness :
    (stop_bot 5 1 false true runningStore).2 = (stop_bot 5 1 true false runningStore).2 ∧
    ∃ r' ∈ (stop_bot 5 1 false true runningStore).2, r'.id = 1 ∧
      r'.status = Status.Stopped ∧ r'.pid = none ∧ r'.container_id = none :=
  stop_forces_stopped 5 1 false true true false runningStore runningRow
    (List.mem_singleton.mpr rfl) rfl

/-- Claim C5, counterexample: the claim asserts that stopping an already-gone
handle returns true. BotRunner.stop returns false for a gone process handle
(the killpg call raises, `except: pass`, fall through to `return False`) and
false for a gone container handle (`containers.get` raises, the handler
returns False). -/
theorem stop_gone_returns_false_cex :
    BotRunner.stop false (some 42) none true = false ∧
    BotRunner.stop true none (some "abc123") true = false := by
  decide

/-- Claim C5 (amended): stopping an already-gone handle returns false - not
true - and never raises (every branch of BotRunner.stop is total); calling the
public stop twice on the same execution leaves state Stopped with the handle
cleared both times - the second call does not change the store - and the
second call's backend stop reports false because the stored handle is
already cleared. The user-facing reply of stop_bot is unconditionally a
success message in the source, independent of these booleans. -/
theorem stop_gone_false_and_idempotent (davail : Bool) (p : Option Int) (c : Option String)
    (d1 g1 d2 g2 : Bool) (req1 req2 bid : Nat) (s : Store) (r : Row)
    (hr : r ∈ s) (hid : r.id = bid) :
    BotRunner.stop davail p c true = false ∧
    (stop_bot req2 bid d2 g2 (stop_bot req1 bid d1 g1 s).2).2
      = (stop_bot req1 bid d1 g1 s).2 ∧
    (stop_bot req2 bid d2 g2 (stop_bot req1 bid d1 g1 s).2).1 = some false := by
  have hs1 : (stop_bot req1 bid d1 g1 s).2 = clearStopped bid s :=
    stop_bot_snd req1 bid d1 g1 s r hr hid
  have hmem1 : stopRow bid r ∈ clearStopped bid s := List.mem_map_of_mem (stopRow bid) hr
  have hid1 : (stopRow bid r).id = bid := by
    rw [stopRow_id]
    exact hid
  refine ⟨?_, ?_, ?_⟩
  · unfold BotRunner.stop
    split
    · rfl
    · split
      · rfl
      · rfl
  · rw [hs1, stop_bot_snd req2 bid d2 g2 (clearStopped bid s) (stopRow bid r) hmem1 hid1]
    exact clearStopped_idem bid s
  · rw [hs1]
    obtain ⟨q, hq⟩ := find?_id_isSome (clearStopped bid s) bid (stopRow bid r) hmem1 hid1
    have hq1 : q ∈ s.map (stopRow bid) := List.mem_of_find?_eq_some hq
    have hqid : q.id = bid := by
      have h1 := List.find?_some hq
      simp only [decide_eq_true_eq] at h1
      exact h1
    rcases List.mem_map.mp hq1 with ⟨x, hx, rfl⟩
    have hclear : (stopRow bid x).pid = none ∧ (stopRow bid x).container_id = none := by
      by_cases hxb : x.id = bid
      · rw [stopRow_of_eq bid x hxb]
        exact ⟨rfl, rfl⟩
      · exfalso
        apply hxb
        rw [← stopRow_id bid x]
        exact hqid
    unfold stop_bot
    rw [hq]
    show some (BotRunner.stop d2 (stopRow bid x).pid (stopRow bid x).container_id g2)
      = some false
    rw [hclear.1, hclear.2]
    rfl

/-- Witness for stop_gone_false_and_idempotent: stopping deployment 1 of
runningStore twice. -/
theorem stop_gone_false_and_idempotent_witness :
    BotRunner.stop false (some 42) none true = false ∧
    (stop_bot 2 1 false false (stop_bot 9 1 false true runningStore).2).2
      = (stop_bot 9 1 false true runningStore).2 ∧
    (stop_bot 2 1 false false (stop_bot 9 1 false true runningStore).2).1 = some false :=
  stop_gone_false_and_idempotent false (some 42) none false true false false 9 2 1
    runningStore runningRow (List.mem_singleton.mpr rfl) rfl

/-- Claim C6, counterexample: the claim asserts that after a failed restart
the following sweep re-attempts the launch. A sweep reads only rows with
status='Running', so on a store holding a Crashed row with auto_restart set
the sweep's snapshot is empty and the sweep changes nothing, even in an
environment (goEnv) in which a re-attempted launch would have succeeded and
set the row Running. -/
theorem crashed_row_not_reattempted :
    BotSupervisor._check_bots goEnv crashedStore = crashedStore ∧
    sweepSnapshot crashedStore = [] := by
  decide

/-- Claim C6 (amended): when a supervisor-triggered restart launch fails, the
execution is left in state=Crashed (the sweep body reduces to the bare crash
write); but it is NOT retried at the next sweep: a sweep's snapshot contains
only rows whose stored status is Running, so a Crashed execution is never
selected again. -/
theorem restart_failure_left_crashed_not_retried (env : SweepEnv) (snap : Row) (s : Store)
    (e : RunError) (hprobe : probeRunning (env.probe snap.id) = false)
    (har : snap.auto_restart = true)
    (hfail : BotRunner.run (env.fe snap.id) (env.so snap.id) (env.h snap.id) snap.user_id
      (crashWrite snap.id s) = Except.error e) :
    checkOne env snap s = crashWrite snap.id s ∧
    (∀ s' : Store, ∀ r ∈ sweepSnapshot s', r.status = Status.Running) := by
  constructor
  · unfold checkOne
    rw [if_neg (by simp [hprobe])]
    show (if snap.auto_restart = true then
        BotSupervisor._restart_bot (env.fe snap.id) (env.so snap.id) (env.h snap.id)
          snap.id snap.user_id (crashWrite snap.id s)
      else crashWrite snap.id s) = crashWrite snap.id s
    rw [if_pos har]
    unfold BotSupervisor._restart_bot
    cases hfind : (crashWrite snap.id s).find? (fun r => decide (r.id = snap.id)) with
    | none => rfl
    | some row => rw [hfail]
  · intro s' r hr
    exact sweepSnapshot_running s' r hr

/-- Witness for restart_failure_left_crashed_not_retried: the running row with
auto_restart set, probe reporting it gone, restart failing because the
artifact file is missing (failEnv). -/
theorem restart_failure_left_crashed_not_retried_witness :
    checkOne failEnv staleSnap [staleSnap] = crashWrite staleSnap.id [staleSnap] ∧
    (∀ s' : Store, ∀ r ∈ sweepSnapshot s', r.status = Status.Running) :=
  restart_failure_left_crashed_not_retried failEnv staleSnap [staleSnap]
    RunError.FileNotFound rfl rfl rfl

/-- Claim C7: in every reachable store every row satisfies the handle/state
invariant - Running rows carry a (truthy) backend handle, Uploaded and
Stopped rows carry none - and the supervisor's crash write changes no pid or
container_id field of any row, so a Crashed row retains the last backend
handle until a restart or stop explicitly overwrites it. -/
theorem handle_state_invariant (s : Store) (hs : Reachable s) :
    (∀ r ∈ s, HandleInv r) ∧
    (∀ bid, (crashWrite bid s).map (fun r => (r.id, r.pid, r.container_id))
      = s.map (fun r => (r.id, r.pid, r.container_id))) :=
  ⟨(reachable_storeInv s hs).handle, fun bid => crashWrite_preserves_handles bid s⟩

/-- Witness for handle_state_invariant at the reachable store demoStore2. -/
theorem handle_state_invariant_witness :
    (∀ r ∈ demoStore2, HandleInv r) ∧
    (∀ bid, (crashWrite bid demoStore2).map (fun r => (r.id, r.pid, r.container_id))
      = demoStore2.map (fun r => (r.id, r.pid, r.container_id))) :=
  handle_state_invariant demoStore2 demoStore2_reachable

/-- Claim C8, counterexample: the claim asserts an execution is treated as not
live after a probe error only after a configurable number of consecutive
probe failures, never on a single one. One sweep in which the single liveness
probe itself errors (errEnv) already writes status='Crashed'. -/
theorem one_probe_error_crashes_cex :
    BotSupervisor._check_bots errEnv runningStore
      = [{ runningRow with status := Status.Crashed }] := by
  decide

/-- Claim C8 (amended): a failure of the liveness probe itself is treated as
"not live" immediately: the derived running flag for a probe error is false,
exactly as for a cleanly-gone target, and a single sweep in which the probe
errors transitions a Running execution to Crashed. No consecutive-failure
counter exists anywhere in the program. -/
theorem single_probe_error_marks_crashed (bid uid : Nat) (nm fn : String) (p : Int)
    (ci : Option String) :
    probeRunning ProbeOutcome.probeError = false ∧
    BotSupervisor._check_bots errEnv
        [{ id := bid, user_id := uid, bot_name := nm, filename := fn, pid := some p,
           container_id := ci, status := Status.Running, auto_restart := false }]
      = [{ id := bid, user_id := uid, bot_name := nm, filename := fn, pid := some p,
           container_id := ci, status := Status.Crashed, auto_restart := false }] := by
  refine ⟨rfl, ?_⟩
  show crashWrite bid
      [{ id := bid, user_id := uid, bot_name := nm, filename := fn, pid := some p,
         container_id := ci, status := Status.Running, auto_restart := false }]
    = [{ id := bid, user_id := uid, bot_name := nm, filename := fn, pid := some p,
         container_id := ci, status := Status.Crashed, auto_restart := false }]
  unfold crashWrite
  rw [List.map_cons, List.map_nil, crashRow_of_eq bid _ rfl]

/-- Claim C9: the stored effect of stop_bot does not depend on the requesting
user: for any two requester ids the whole result (backend boolean and store)
is identical, the handler looks the deployment up by id alone, and whenever a
row with that id exists it is written to Stopped with the handle cleared -
there is no ownership check comparing the requester with the row's owner. -/
theorem stop_ignores_requester (u1 u2 bid : Nat) (davail gone : Bool) (s : Store) :
    stop_bot u1 bid davail gone s = stop_bot u2 bid davail gone s ∧
    ∀ r ∈ s, r.id = bid →
      ∃ r' ∈ (stop_bot u1 bid davail gone s).2, r'.id = bid ∧ r'.status = Status.Stopped ∧
        r'.pid = none ∧ r'.container_id = none := by
  refine ⟨rfl, ?_⟩
  intro r hr hid
  rw [stop_bot_snd u1 bid davail gone s r hr hid]
  exact clearStopped_mem bid s r hr hid

/-- Witness for stop_ignores_requester: the owner (7) and an unrelated user
(424242) produce the same result on runningStore. -/
theorem stop_ignores_requester_witness :
    stop_bot 7 1 false true runningStore = stop_bot 424242 1 false true runningStore ∧
    (∀ r ∈ runningStore, r.id = 1 →
      ∃ r' ∈ (stop_bot 7 1 false true runningStore).2, r'.id = 1 ∧
        r'.status = Status.Stopped ∧ r'.pid = none ∧ r'.container_id = none) :=
  stop_ignores_requester 7 424242 1 false true runningStore

/-- Claim C10: in every reachable store every row has auto_restart = 0 (the
upload INSERT leaves the schema default 0, user deployment passes
auto_restart=False and never writes the column, and no other operation writes
it), so the supervisor's auto-restart branch is never taken: a sweep over such
a store is exactly the sweep with the restart branch removed. -/
theorem auto_restart_never_enabled (s : Store) (hs : Reachable s) (env : SweepEnv) :
    (∀ r ∈ s, r.auto_restart = false) ∧
    BotSupervisor._check_bots env s = check_bots_no_restart env s := by
  have hauto := (reachable_storeInv s hs).auto
  refine ⟨hauto, ?_⟩
  unfold BotSupervisor._check_bots check_bots_no_restart
  exact foldl_no_restart env (sweepSnapshot s)
    (fun r hr => hauto r (List.mem_filter.mp hr).1) s

/-- Witness for auto_restart_never_enabled at the reachable store demoStore2. -/
theorem auto_restart_never_enabled_witness :
    (∀ r ∈ demoStore2, r.auto_restart = false) ∧
    BotSupervisor._check_bots goEnv demoStore2 = check_bots_no_restart goEnv demoStore2 :=
  auto_restart_never_enabled demoStore2 demoStore2_reachable goEnv
